import Mathlib

/-!
Shallow embedding of the block-windowing / decimation engine of
`burst_search` (files `burst_search/datasource.py` and
`burst_search/search.py`).

Numeric values (times, frequencies, intensity samples) are modelled as
rationals.  A 2D numpy array with axes (frequency, time) is modelled as a
`Block`: a list of channel rows together with the time-axis extent
(numpy's `shape[1]`, which is carried even when the frequency axis is
empty).  The numpy `dtype` of the backend's arrays is modelled by a cast
function `ℚ → ℚ` (what `.astype(dtype)` applies elementwise); failures
(`StopIteration` on stream end, the `NotImplementedError` raised for an
indivisible scrunch factor, the index error raised when the passband
selects no channel) are the constructors of `StreamError`.
-/

namespace BurstSearch

/-- Decidable equality for fetch results, so that concrete runs of the
engine can be checked by evaluation. -/
instance instDecEqExcept [DecidableEq ε] [DecidableEq α] : DecidableEq (Except ε α)
  | Except.ok a, Except.ok b =>
    if h : a = b then Decidable.isTrue (by rw [h]) else Decidable.isFalse (by simp [h])
  | Except.error a, Except.error b =>
    if h : a = b then Decidable.isTrue (by rw [h]) else Decidable.isFalse (by simp [h])
  | Except.ok _, Except.error _ => Decidable.isFalse (by simp)
  | Except.error _, Except.ok _ => Decidable.isFalse (by simp)

/-- Failure modes of the engine: stream exhaustion (`StopIteration` from
`get_next_block_native`), an indivisible scrunch factor carrying the factor
and the native time-sample count (`NotImplementedError` in
`get_next_block`), and an empty passband selection (the failure of
`inband[0]` on an empty index list in `_freq_native_and_slice`). -/
inductive StreamError where
  | endOfStream : StreamError
  | indivisibleScrunch (factor : ℕ) (ntime : ℕ) : StreamError
  | emptyBand : StreamError
deriving DecidableEq

/-- A frequency-axis index selection: `none` is the full slice `np.s_[:]`,
`some (start, stop)` is `np.s_[start:stop]`. -/
abbrev FSlice := Option (ℕ × ℕ)

/-- Applying a slice to a list, with numpy's `l[start:stop]` meaning. -/
def applySlice (s : FSlice) (l : List α) : List α :=
  match s with
  | none => l
  | some (start, stop) => (l.drop start).take (stop - start)

/-- A 2D data array with axes (frequency channel, time sample):
`rows` are the per-channel time series, `ntime` is `shape[1]`. -/
structure Block where
  ntime : ℕ
  rows : List (List ℚ)
deriving DecidableEq

/-- Well-formedness (rectangularity) of a numpy-array model: every channel
row has exactly `ntime` samples. -/
def Block.wf (b : Block) : Prop := ∀ r ∈ b.rows, r.length = b.ntime

instance (b : Block) : Decidable b.wf :=
  inferInstanceAs (Decidable (∀ r ∈ b.rows, r.length = b.ntime))

/-- `data_native[f_slice]`: slicing a 2D array along the frequency axis
(axis 0).  The time axis is untouched. -/
def Block.sliceFreq (b : Block) (s : FSlice) : Block :=
  { ntime := b.ntime, rows := applySlice s b.rows }

/-- One channel row of `np.mean(data.reshape(nfreq, m, k), -1).astype(dtype)`:
output sample `j` (for `j < m`) is the mean of input samples
`[j*k, (j+1)*k)`, cast back by the dtype. -/
def scrunchRow (cast : ℚ → ℚ) (k m : ℕ) (row : List ℚ) : List ℚ :=
  (List.range m).map (fun j => cast (((row.drop (j * k)).take k).sum / (k : ℚ)))

/-- The reshape-and-mean step of `get_next_block`:
`shape = (nfreq, ntime // k, k)` followed by `np.mean(data, -1).astype(dtype)`. -/
def Block.scrunch (b : Block) (cast : ℚ → ℚ) (k : ℕ) : Block :=
  { ntime := b.ntime / k, rows := b.rows.map (scrunchRow cast k (b.ntime / k)) }

/-- The engine state visible to one `get_next_block` call: the constructor
arguments (`_scrunch`, `_passband`), the backend-supplied geometry
(`_delta_t_native`, `_delta_f`, `_freq0`, `_nfreq`), the dtype of the
backend's arrays (`cast`), and the backend's next native fetch result
(`get_next_block_native`, which either yields `(t0, data)` or fails). -/
structure DataSource where
  scrunch : ℕ
  passband : Option (ℚ × ℚ)
  delta_t_native : ℚ
  delta_f : ℚ
  freq0 : ℚ
  nfreq : ℕ
  cast : ℚ → ℚ
  nextNative : Except StreamError (ℚ × Block)

namespace DataSource

/-- Property `delta_t`: `self._delta_t_native * self._scrunch`. -/
def delta_t (ds : DataSource) : ℚ := ds.delta_t_native * (ds.scrunch : ℚ)

/-- The native frequency axis
`np.arange(self._nfreq, dtype=float) * self.delta_f + self._freq0`. -/
def freqNative (ds : DataSource) : List ℚ :=
  (List.range ds.nfreq).map (fun (i : ℕ) => (i : ℚ) * ds.delta_f + ds.freq0)

/-- The indices of the channels strictly inside the passband:
`np.nonzero(np.logical_and(freq_native > passband[0], freq_native < passband[1]))`. -/
def inband (ds : DataSource) (lo hi : ℚ) : List ℕ :=
  (List.range ds.nfreq).filter
    (fun (i : ℕ) => decide (lo < (i : ℚ) * ds.delta_f + ds.freq0 ∧
                            (i : ℚ) * ds.delta_f + ds.freq0 < hi))

/-- `_freq_native_and_slice`: the native axis together with the selection
slice `np.s_[inband[0]:inband[-1] + 1]` (or the full slice `np.s_[:]` when
no passband is set); fails when the passband selects no channel. -/
def freqNativeAndSlice (ds : DataSource) : Except StreamError (List ℚ × FSlice) :=
  match ds.passband with
  | none => Except.ok (ds.freqNative, none)
  | some (lo, hi) =>
    match ds.inband lo hi with
    | [] => Except.error StreamError.emptyBand
    | i :: rest =>
      Except.ok (ds.freqNative,
        some (i, (i :: rest).getLast (List.cons_ne_nil i rest) + 1))

/-- Property `freq`: `freq, f_slice = self._freq_native_and_slice();
return freq[f_slice]`. -/
def freq (ds : DataSource) : Except StreamError (List ℚ) :=
  (ds.freqNativeAndSlice).map (fun p => applySlice p.2 p.1)

/-- `get_next_block`: fetch the native block, apply the frequency
selection, then (unless `scrunch == 1`) check divisibility, advance `t0`
by `self.delta_t * (1 - 1./scrunch) / 2` and average groups of `scrunch`
consecutive time samples. -/
def get_next_block (ds : DataSource) : Except StreamError (ℚ × Block) :=
  match ds.nextNative with
  | Except.error e => Except.error e
  | Except.ok (t0, dataNative0) =>
    match ds.freqNativeAndSlice with
    | Except.error e => Except.error e
    | Except.ok (_, fslice) =>
      let dataNative := dataNative0.sliceFreq fslice
      if ds.scrunch = 1 then Except.ok (t0, dataNative)
      else
        let ntimeNative := dataNative.ntime
        if ntimeNative % ds.scrunch ≠ 0 then
          Except.error (StreamError.indivisibleScrunch ds.scrunch ntimeNative)
        else
          Except.ok (t0 + ds.delta_t * (1 - 1 / (ds.scrunch : ℚ)) / 2,
                     dataNative.scrunch ds.cast ds.scrunch)

/-- Reference composition for the `scrunch == 1` refinement: the result of
`get_next_block_native` with only the resolved frequency selection applied
to the data and `t0` unchanged (no decimation step). -/
def nativeSlicedOnly (ds : DataSource) : Except StreamError (ℚ × Block) :=
  match ds.nextNative with
  | Except.error e => Except.error e
  | Except.ok (t0, dataNative) =>
    match ds.freqNativeAndSlice with
    | Except.error e => Except.error e
    | Except.ok (_, fslice) => Except.ok (t0, dataNative.sliceFreq fslice)

end DataSource

/-- A concrete native block used to exercise the theorems: 4 channels,
8 time samples. -/
def exBlock : Block :=
  { ntime := 8,
    rows := [[0, 1, 2, 3, 4, 5, 6, 7],
             [8, 9, 10, 11, 12, 13, 14, 15],
             [16, 17, 18, 19, 20, 21, 22, 23],
             [24, 25, 26, 27, 28, 29, 30, 31]] }

/-- A concrete data source delivering `exBlock` at `t0 = 10`, with native
geometry `nfreq = 4`, `delta_f = 1`, `freq0 = 0`, `delta_t_native = 1`,
identity dtype cast, and the given scrunch factor and passband. -/
def exSource (k : ℕ) (pb : Option (ℚ × ℚ)) : DataSource :=
  { scrunch := k, passband := pb, delta_t_native := 1, delta_f := 1,
    freq0 := 0, nfreq := 4, cast := fun x => x,
    nextNative := Except.ok (10, exBlock) }

/-- A concrete exhausted data source: the native fetch fails with
end-of-stream. -/
def exEnded (k : ℕ) (pb : Option (ℚ × ℚ)) : DataSource :=
  { exSource k pb with nextNative := Except.error StreamError.endOfStream }

/-- The block that `exSource 2 none` delivers after decimation by 2:
4 output samples per channel, each the mean of two native samples. -/
def exScrunched2 : Block :=
  { ntime := 4,
    rows := [[1/2, 5/2, 9/2, 13/2],
             [17/2, 21/2, 25/2, 29/2],
             [33/2, 37/2, 41/2, 45/2],
             [49/2, 53/2, 57/2, 61/2]] }

/-- A candidate detection (`search.Trigger`): the block it was found in,
the `(dm_index, time_index)` centre, and the signal-to-noise score. -/
structure Trigger (δ : Type) where
  data : δ
  dm_ind : ℤ
  time_ind : ℤ
  snr : ℚ
deriving DecidableEq

/-- The `Trigger(data, centre, snr)` constructor, which splits the centre
pair into its two index fields. -/
def Trigger.make (data : δ) (centre : ℤ × ℤ) (snr : ℚ) : Trigger δ :=
  { data := data, dm_ind := centre.1, time_ind := centre.2, snr := snr }

/-- Property `centre`: `(self._dm_ind, self._time_ind)`. -/
def Trigger.centre (t : Trigger δ) : ℤ × ℤ := (t.dm_ind, t.time_ind)

/-- `search.basic(data, snr_threshold)`: call the external detection
function `_search.sievers_find_peak` (injected here as a parameter),
receive `(snr, sample, duration)`, and produce one `Trigger` exactly when
`snr > snr_threshold` (the source default for the threshold is `5.`). -/
def basic (sievers_find_peak : δ → ℚ × (ℤ × ℤ) × ℚ) (data : δ)
    (snr_threshold : ℚ) : List (Trigger δ) :=
  let r := sievers_find_peak data
  if r.1 > snr_threshold then [Trigger.make data r.2.1 r.1] else []

/-! ### Helper lemmas -/

theorem sliceFreq_ntime (b : Block) (s : FSlice) : (b.sliceFreq s).ntime = b.ntime := rfl

theorem freqNative_length (ds : DataSource) : ds.freqNative.length = ds.nfreq := by
  rw [DataSource.freqNative, List.length_map, List.length_range]

/-! ### Claim theorems -/

/-- C8: whenever the backend's native fetch fails, `get_next_block`
propagates the identical error unchanged, with no slicing, decimation or
partial result; and an indivisible-scrunch failure raised during
decimation surfaces to the caller unchanged, carrying the factor and the
native time-sample count. -/
theorem claim8_error_propagation (ds : DataSource) (e : StreamError) :
    (ds.nextNative = Except.error e → ds.get_next_block = Except.error e) ∧
    (∀ t0 b fn s, ds.nextNative = Except.ok (t0, b) →
      ds.freqNativeAndSlice = Except.ok (fn, s) →
      ds.scrunch ≠ 1 → b.ntime % ds.scrunch ≠ 0 →
      ds.get_next_block =
        Except.error (StreamError.indivisibleScrunch ds.scrunch b.ntime)) := by
  constructor
  · intro h
    simp [DataSource.get_next_block, h]
  · intro t0 b fn s h1 h2 h3 h4
    simp [DataSource.get_next_block, h1, h2, h3, sliceFreq_ntime, h4]

/-- Witness for C8: with the exhausted example source the end-of-stream
error surfaces unchanged, and with scrunch factor 3 on the 8-sample
example block the indivisible-scrunch error carrying `(3, 8)` surfaces. -/
theorem claim8_error_propagation_witness :
    (exEnded 2 none).get_next_block = Except.error StreamError.endOfStream ∧
    (exSource 3 none).get_next_block =
      Except.error (StreamError.indivisibleScrunch 3 8) :=
  ⟨(claim8_error_propagation (exEnded 2 none) StreamError.endOfStream).1 rfl,
   (claim8_error_propagation (exSource 3 none) StreamError.endOfStream).2
     10 exBlock ((exSource 3 none).freqNative) none rfl rfl
     (by decide) (by decide)⟩

/-- C5: with decimation factor 1, `get_next_block` returns exactly the
native fetch result with only the resolved frequency selection applied to
the data and `t0` unchanged (decimation is a no-op). -/
theorem claim5_scrunch_one_noop (ds : DataSource) (h1 : ds.scrunch = 1) :
    ds.get_next_block = ds.nativeSlicedOnly := by
  unfold DataSource.get_next_block DataSource.nativeSlicedOnly
  cases hn : ds.nextNative with
  | error e => rfl
  | ok p =>
    cases hf : ds.freqNativeAndSlice with
    | error e => rfl
    | ok q => simp [h1]

/-- Witness for C5: a concrete source with scrunch factor 1. -/
theorem claim5_scrunch_one_noop_witness :
    (exSource 1 none).get_next_block = (exSource 1 none).nativeSlicedOnly :=
  claim5_scrunch_one_noop (exSource 1 none) rfl

/-- C6: when a passband is set and no channel frequency lies strictly
between its two bounds, frequency-axis resolution fails with the
empty-band error instead of returning a selection. -/
theorem claim6_empty_band (ds : DataSource) (lo hi : ℚ)
    (hpb : ds.passband = some (lo, hi))
    (hno : ∀ i, i < ds.nfreq →
      ¬(lo < (i : ℚ) * ds.delta_f + ds.freq0 ∧
        (i : ℚ) * ds.delta_f + ds.freq0 < hi)) :
    ds.freqNativeAndSlice = Except.error StreamError.emptyBand := by
  have hemp : ds.inband lo hi = [] := by
    rw [DataSource.inband, List.filter_eq_nil_iff]
    intro a ha
    rw [List.mem_range] at ha
    simpa using hno a ha
  simp [DataSource.freqNativeAndSlice, hpb, hemp]

/-- Witness for C6: a passband of `(10, 20)` over the example geometry
(frequencies 0, 1, 2, 3) excludes every channel. -/
theorem claim6_empty_band_witness :
    (exSource 1 (some (10, 20))).freqNativeAndSlice =
      Except.error StreamError.emptyBand :=
  claim6_empty_band (exSource 1 (some (10, 20))) 10 20 rfl
    (by with_unfolding_all decide)

/-- C9: with no passband set, resolution returns the full-axis selection
(no channel removed), the `freq` property is the whole native axis, its
length is the native channel count, and its element `i` is
`freq0 + i * delta_f`. -/
theorem claim9_no_passband (ds : DataSource) (hpb : ds.passband = none) :
    ds.freqNativeAndSlice = Except.ok (ds.freqNative, none) ∧
    ds.freq = Except.ok ds.freqNative ∧
    ds.freqNative.length = ds.nfreq ∧
    ∀ i, i < ds.nfreq →
      ds.freqNative[i]? = some (ds.freq0 + (i : ℚ) * ds.delta_f) := by
  have h1 : ds.freqNativeAndSlice = Except.ok (ds.freqNative, none) := by
    simp [DataSource.freqNativeAndSlice, hpb]
  refine ⟨h1, ?_, freqNative_length ds, ?_⟩
  · rw [DataSource.freq, h1]
    rfl
  · intro i h
    have h2 : ds.freqNative[i]? = some ((i : ℚ) * ds.delta_f + ds.freq0) := by
      simp [DataSource.freqNative, List.getElem?_map, List.getElem?_range, h]
    rw [h2, add_comm]

/-- Witness for C9: the example geometry with no passband. -/
theorem claim9_no_passband_witness :
    (exSource 1 none).freqNativeAndSlice =
      Except.ok ((exSource 1 none).freqNative, none) ∧
    (exSource 1 none).freq = Except.ok ((exSource 1 none).freqNative) ∧
    (exSource 1 none).freqNative.length = (exSource 1 none).nfreq ∧
    ∀ i, i < (exSource 1 none).nfreq →
      (exSource 1 none).freqNative[i]? =
        some ((exSource 1 none).freq0 + (i : ℚ) * (exSource 1 none).delta_f) :=
  claim9_no_passband (exSource 1 none) rfl

/-- C2: whenever `get_next_block` returns, the returned `t0` is the native
`t0` unchanged for scrunch factor 1, and the native `t0` advanced by
`delta_t_native * k * (1 - 1/k) / 2` for scrunch factor `k > 1`. -/
theorem claim2_t0_alignment (ds : DataSource) (t0 t0' : ℚ) (b d : Block)
    (hnext : ds.nextNative = Except.ok (t0, b))
    (hout : ds.get_next_block = Except.ok (t0', d)) :
    (ds.scrunch = 1 → t0' = t0) ∧
    (1 < ds.scrunch →
      t0' = t0 + ds.delta_t_native * (ds.scrunch : ℚ) *
        (1 - 1 / (ds.scrunch : ℚ)) / 2) := by
  rw [DataSource.get_next_block, hnext] at hout
  cases hf : ds.freqNativeAndSlice with
  | error e => rw [hf] at hout; simp at hout
  | ok q =>
    rw [hf] at hout
    by_cases h1 : ds.scrunch = 1
    · simp [h1] at hout
      refine ⟨fun _ => hout.1.symm, fun hlt => ?_⟩
      rw [h1] at hlt; exact absurd hlt (lt_irrefl 1)
    · by_cases h2 : (b.sliceFreq q.2).ntime % ds.scrunch = 0
      · simp [h1, h2] at hout
        refine ⟨fun hc => absurd hc h1, fun _ => ?_⟩
        rw [← hout.1, DataSource.delta_t, one_div]
      · simp [h1, h2] at hout

/-- Witness for C2: the example source with scrunch factor 2 returns
`t0 = 21/2 = 10 + 1 * 2 * (1 - 1/2) / 2`. -/
theorem claim2_t0_alignment_witness :
    ((exSource 2 none).scrunch = 1 → (21/2 : ℚ) = 10) ∧
    (1 < (exSource 2 none).scrunch →
      (21/2 : ℚ) = 10 + (exSource 2 none).delta_t_native *
        ((exSource 2 none).scrunch : ℚ) *
        (1 - 1 / ((exSource 2 none).scrunch : ℚ)) / 2) :=
  claim2_t0_alignment (exSource 2 none) 10 (21/2) exBlock exScrunched2 rfl
    (by with_unfolding_all decide)

/-- C4: when the scrunch factor exceeds 1 and does not divide the native
time-axis length, `get_next_block` fails with the indivisible-scrunch
error carrying the factor and the time-sample count. -/
theorem claim4_indivisible (ds : DataSource) (t0 : ℚ) (b : Block)
    (fn : List ℚ) (s : FSlice)
    (hnext : ds.nextNative = Except.ok (t0, b))
    (hres : ds.freqNativeAndSlice = Except.ok (fn, s))
    (hk : 1 < ds.scrunch) (hnd : ¬ ds.scrunch ∣ b.ntime) :
    ds.get_next_block =
      Except.error (StreamError.indivisibleScrunch ds.scrunch b.ntime) := by
  have h1 : ds.scrunch ≠ 1 := by omega
  have h2 : b.ntime % ds.scrunch ≠ 0 := fun h => hnd (Nat.dvd_of_mod_eq_zero h)
  simp [DataSource.get_next_block, hnext, hres, h1, sliceFreq_ntime, h2]

/-- Witness for C4: 8 native time samples with scrunch factor 3 fail
carrying `(3, 8)`, while scrunch factor 4 succeeds with exactly 2 output
samples. -/
theorem claim4_indivisible_witness :
    ((exSource 3 none).get_next_block =
      Except.error (StreamError.indivisibleScrunch 3 8)) ∧
    ((exSource 4 none).get_next_block.map (fun p => p.2.ntime) =
      Except.ok 2) :=
  ⟨claim4_indivisible (exSource 3 none) 10 exBlock
      ((exSource 3 none).freqNative) none rfl rfl (by decide) (by decide),
   by with_unfolding_all decide⟩

/-- C3: with a passband set and at least one qualifying channel, the
resolved selection is the single contiguous index range from the first
qualifying channel index to the last qualifying channel index inclusive
(slice `[first, last + 1)`), where the qualifying indices are exactly the
channels whose frequency lies strictly between the two bounds. -/
theorem claim3_passband_selection (ds : DataSource) (lo hi : ℚ)
    (first last : ℕ)
    (hpb : ds.passband = some (lo, hi))
    (hfirst : (ds.inband lo hi).head? = some first)
    (hlast : (ds.inband lo hi).getLast? = some last) :
    ds.freqNativeAndSlice =
      Except.ok (ds.freqNative, some (first, last + 1)) ∧
    ∀ j : ℕ, j ∈ ds.inband lo hi ↔
      (j < ds.nfreq ∧ lo < (j : ℚ) * ds.delta_f + ds.freq0 ∧
        (j : ℚ) * ds.delta_f + ds.freq0 < hi) := by
  have hmem : ∀ j : ℕ, j ∈ ds.inband lo hi ↔
      (j < ds.nfreq ∧ lo < (j : ℚ) * ds.delta_f + ds.freq0 ∧
        (j : ℚ) * ds.delta_f + ds.freq0 < hi) := by
    intro j
    simp [DataSource.inband, List.mem_filter, List.mem_range, and_assoc]
  refine ⟨?_, hmem⟩
  cases hq : ds.inband lo hi with
  | nil => rw [hq] at hfirst; simp at hfirst
  | cons i rest =>
    rw [hq, List.head?_cons] at hfirst
    have hfirst' : i = first := by injection hfirst
    subst hfirst'
    have hlast' : (i :: rest).getLast (List.cons_ne_nil i rest) = last := by
      have hl := List.getLast?_eq_getLast (i :: rest) (List.cons_ne_nil i rest)
      rw [hq, hl] at hlast
      injection hlast
    subst hlast'
    simp [DataSource.freqNativeAndSlice, hpb, hq]

/-- Witness for C3: 4 channels with spacing 1, reference frequency 0 and
passband `(1/2, 5/2)`: qualifying indices are 1 and 2, and the resolved
selection is the slice `[1, 3)`, i.e. indices 1 and 2 inclusive. -/
theorem claim3_passband_selection_witness :
    (exSource 1 (some (1/2, 5/2))).freqNativeAndSlice =
      Except.ok ((exSource 1 (some (1/2, 5/2))).freqNative, some (1, 3)) :=
  (claim3_passband_selection (exSource 1 (some (1/2, 5/2))) (1/2) (5/2) 1 2
    rfl (by with_unfolding_all decide) (by with_unfolding_all decide)).1

/-- C10: applying the resolved frequency selection removes only whole
channels and leaves the time axis untouched: the sliced block has the
same number of time samples, each retained channel row is one of the
native rows (at the index shifted by the slice start), and divisibility
of the sliced time length by any factor is the same condition as
divisibility of the native time length. -/
theorem claim10_slice_frame (b : Block) (s : FSlice) :
    (b.sliceFreq s).ntime = b.ntime ∧
    (∀ r ∈ (b.sliceFreq s).rows, r ∈ b.rows) ∧
    (s = none → (b.sliceFreq s).rows = b.rows) ∧
    (∀ start stop, s = some (start, stop) →
      ∀ i, i < (b.sliceFreq s).rows.length →
        (b.sliceFreq s).rows[i]? = b.rows[start + i]?) ∧
    (∀ k : ℕ, (b.sliceFreq s).ntime % k = b.ntime % k) := by
  refine ⟨rfl, ?_, ?_, ?_, fun k => rfl⟩
  · intro r hr
    cases s with
    | none => exact hr
    | some p =>
      obtain ⟨start, stop⟩ := p
      exact List.drop_subset start b.rows (List.take_subset _ _ hr)
  · intro hs
    rw [hs]
    rfl
  · intro start stop hs i hi
    subst hs
    simp only [Block.sliceFreq, applySlice] at hi ⊢
    have hi' : i < stop - start :=
      lt_of_lt_of_le hi (List.length_take_le _ _)
    rw [List.getElem?_take, if_pos hi', List.getElem?_drop]

/-- Witness for C10: slicing the example block to channels `[1, 3)` keeps
the 8-sample time axis and maps retained row 0 to native row 1. -/
theorem claim10_slice_frame_witness :
    (exBlock.sliceFreq (some (1, 3))).ntime = exBlock.ntime ∧
    (exBlock.sliceFreq (some (1, 3))).rows[0]? = exBlock.rows[1 + 0]? :=
  ⟨(claim10_slice_frame exBlock (some (1, 3))).1,
   (claim10_slice_frame exBlock (some (1, 3))).2.2.2.1 1 3 rfl 0 (by decide)⟩

/-- C7: the search wrapper produces exactly one trigger, whose centre is
the `(dmIndex, timeIndex)` pair returned by the external detection
function, precisely when the returned score exceeds the threshold, and
produces no trigger otherwise; in particular a score of 7.2 at
`(120, 4050)` yields one trigger with that centre under threshold 5 and
none under threshold 8. -/
theorem claim7_trigger_threshold :
    (∀ (δ : Type) (f : δ → ℚ × (ℤ × ℤ) × ℚ) (d : δ) (thr : ℚ),
      basic f d thr =
        if (f d).1 > thr then [Trigger.make d (f d).2.1 (f d).1] else []) ∧
    (∀ (δ : Type) (d : δ) (c : ℤ × ℤ) (snr : ℚ),
      (Trigger.make d c snr).centre = c) ∧
    ((basic (fun _ : Unit => ((36/5 : ℚ), ((120 : ℤ), (4050 : ℤ)), (3 : ℚ))) () 5).map
        Trigger.centre = [(120, 4050)]) ∧
    (basic (fun _ : Unit => ((36/5 : ℚ), ((120 : ℤ), (4050 : ℤ)), (3 : ℚ))) () 8 = []) := by
  refine ⟨fun δ f d thr => rfl, fun δ d c snr => rfl, ?_, ?_⟩
  · with_unfolding_all decide
  · with_unfolding_all decide

/-- C1: for a rectangular native block whose time length is divisible by
the scrunch factor `k ≥ 2`, `get_next_block` succeeds, the output time
length is the native time length divided by `k`, and for every retained
channel the output sample at index `j` is the arithmetic mean of that
channel's native samples `[j*k, (j+1)*k)`, cast back by the array dtype. -/
theorem claim1_decimation_mean (ds : DataSource) (t0 : ℚ) (b : Block)
    (fn : List ℚ) (s : FSlice)
    (hnext : ds.nextNative = Except.ok (t0, b))
    (hres : ds.freqNativeAndSlice = Except.ok (fn, s))
    (_hwf : b.wf)
    (hk : 2 ≤ ds.scrunch) (hdvd : ds.scrunch ∣ b.ntime) :
    ∃ t0' : ℚ, ∃ data : Block,
      ds.get_next_block = Except.ok (t0', data) ∧
      data.ntime = b.ntime / ds.scrunch ∧
      (∀ r ∈ data.rows, r.length = b.ntime / ds.scrunch) ∧
      data.rows.length = (b.sliceFreq s).rows.length ∧
      ∀ (i : ℕ) (r : List ℚ), (b.sliceFreq s).rows[i]? = some r →
        ∀ j, j < b.ntime / ds.scrunch →
          (data.rows[i]?).bind (fun out => out[j]?) =
            some (ds.cast
              (((r.drop (j * ds.scrunch)).take ds.scrunch).sum /
                (ds.scrunch : ℚ))) := by
  have h1 : ds.scrunch ≠ 1 := by omega
  have h2 : b.ntime % ds.scrunch = 0 := Nat.mod_eq_zero_of_dvd hdvd
  have hgnb : ds.get_next_block =
      Except.ok (t0 + ds.delta_t * (1 - 1 / (ds.scrunch : ℚ)) / 2,
                 (b.sliceFreq s).scrunch ds.cast ds.scrunch) := by
    simp [DataSource.get_next_block, hnext, hres, h1, sliceFreq_ntime, h2]
  refine ⟨_, _, hgnb, rfl, ?_, ?_, ?_⟩
  · intro r hr
    rw [Block.scrunch] at hr
    obtain ⟨r0, _, hr0⟩ := List.mem_map.mp hr
    rw [← hr0, scrunchRow, List.length_map, List.length_range]
    rfl
  · rw [Block.scrunch, List.length_map]
  · intro i r hir j hj
    simp [Block.scrunch, List.getElem?_map, hir, scrunchRow,
      sliceFreq_ntime, List.getElem?_range, hj]

/-- Witness for C1: the example source with scrunch factor 2 on the
rectangular 4-by-8 example block. -/
theorem claim1_decimation_mean_witness :
    ∃ t0' : ℚ, ∃ data : Block,
      (exSource 2 none).get_next_block = Except.ok (t0', data) ∧
      data.ntime = exBlock.ntime / (exSource 2 none).scrunch ∧
      (∀ r ∈ data.rows, r.length = exBlock.ntime / (exSource 2 none).scrunch) ∧
      data.rows.length = (exBlock.sliceFreq none).rows.length ∧
      ∀ (i : ℕ) (r : List ℚ), (exBlock.sliceFreq none).rows[i]? = some r →
        ∀ j, j < exBlock.ntime / (exSource 2 none).scrunch →
          (data.rows[i]?).bind (fun out => out[j]?) =
            some ((exSource 2 none).cast
              (((r.drop (j * (exSource 2 none).scrunch)).take
                  (exSource 2 none).scrunch).sum /
                ((exSource 2 none).scrunch : ℚ))) :=
  claim1_decimation_mean (exSource 2 none) 10 exBlock
    ((exSource 2 none).freqNative) none rfl rfl (by decide) (by decide)
    (by decide)

end BurstSearch
